import Mathlib

/-!
Verification of the portfolio-builder wizard and document generator of
`src/script.js` (the `Portfolio Builder Integration` block, lines 1753-2135).

The embedding is a shallow one: the global mutable arrays
(`portfolioSkills`, `portfolioCertificates`, `portfolioWorkExperience`) and
the step counter become explicit state passed to pure functions; DOM reads
become function arguments; `alert` calls become returned message lists; the
asynchronous certificate-image read is modelled by its completed effect.
String values are Lean `String`s; the themed document produced by
`generatePortfolioHTML` is assembled from the same string chunks, in the
same order, as the source.
-/

/-- Models JavaScript `String.prototype.trim`: drops leading and trailing
whitespace characters. Defined over the character list so that it reduces
in the kernel. -/
def jsTrim (s : String) : String :=
  String.mk (((s.data.dropWhile Char.isWhitespace).reverse.dropWhile
    Char.isWhitespace).reverse)

/-- Entries of `portfolioCertificates` (src/script.js line 1854):
`{ name, issuer, image }`, `image` a data-URI string once the file read
completes, or `null`. -/
structure Certificate where
  name : String
  issuer : String
  image : Option String
deriving DecidableEq

/-- Entries of `portfolioWorkExperience` (src/script.js line 1900). -/
structure WorkEntry where
  title : String
  company : String
  desc : String
deriving DecidableEq

/-- Project entries harvested from the project sub-forms
(src/script.js lines 1951-1957). -/
structure Project where
  name : String
  desc : String
  image : String
  link : String
  github : String
deriving DecidableEq

/-- The snapshot handed to `generatePortfolioHTML` (src/script.js lines
1961-1981). The JS field `bio` is called `bioText` here. -/
structure PortfolioData where
  fullName : String
  email : String
  title : String
  bioText : String
  profileImage : String
  domain : String
  experience : String
  skills : List String
  projects : List Project
  certificates : List Certificate
  workExperience : List WorkEntry
  education : String
  phone : String
  location : String
  linkedin : String
  github : String
  website : String
  twitter : String
  theme : String
deriving DecidableEq

/-- A certificate image file as read from the file picker: its byte size and
the data URI the `FileReader` would produce for it. -/
structure ImageFile where
  size : Nat
  dataURL : String
deriving DecidableEq

/-- One entry of the `themeColors` table (src/script.js lines 1987-1993). -/
structure ThemePalette where
  primary : String
  secondary : String
  bg : String
  cardBg : String
  text : String
deriving DecidableEq

/-- Embeds src/script.js line 1988. -/
def darkTheme : ThemePalette :=
  { primary := "#667eea", secondary := "#764ba2", bg := "#0f0f1e",
    cardBg := "#1a1a2e", text := "#ffffff" }

/-- Embeds src/script.js line 1989. -/
def blueTheme : ThemePalette :=
  { primary := "#3b82f6", secondary := "#1e40af", bg := "#0f172a",
    cardBg := "#1e293b", text := "#ffffff" }

/-- Embeds src/script.js line 1990. -/
def greenTheme : ThemePalette :=
  { primary := "#10b981", secondary := "#047857", bg := "#064e3b",
    cardBg := "#065f46", text := "#ffffff" }

/-- Embeds src/script.js line 1991. -/
def orangeTheme : ThemePalette :=
  { primary := "#f97316", secondary := "#ea580c", bg := "#431407",
    cardBg := "#7c2d12", text := "#ffffff" }

/-- Embeds src/script.js line 1992. -/
def pinkTheme : ThemePalette :=
  { primary := "#ec4899", secondary := "#be185d", bg := "#500724",
    cardBg := "#831843", text := "#ffffff" }

/-- The `themeColors` object of src/script.js lines 1987-1993, as an
association list in source order. -/
def themeColors : List (String × ThemePalette) :=
  [("dark", darkTheme), ("blue", blueTheme), ("green", greenTheme),
   ("orange", orangeTheme), ("pink", pinkTheme)]

/-- Property names every plain JavaScript object inherits from
`Object.prototype`. Bracket access on the `themeColors` object literal walks
the prototype chain, so these names hit inherited values (functions, and for
`__proto__` the prototype object itself) even though they are not own keys
of the literal. -/
def objectPrototypeProps : List String :=
  ["constructor", "hasOwnProperty", "isPrototypeOf", "propertyIsEnumerable",
   "toLocaleString", "toString", "valueOf", "__proto__", "__defineGetter__",
   "__defineSetter__", "__lookupGetter__", "__lookupSetter__"]

/-- The palette-shaped view of an inherited lookup hit: such a value has
none of the five color properties, and JavaScript renders each resulting
`undefined` property as the string "undefined" when it is concatenated into
the document. -/
def undefinedTheme : ThemePalette :=
  { primary := "undefined", secondary := "undefined", bg := "undefined",
    cardBg := "undefined", text := "undefined" }

/-- Embeds `themeColors[data.theme] || themeColors.dark`
(src/script.js line 1995). Bracket access finds the five own keys first;
otherwise a name inherited from `Object.prototype` yields a truthy
non-palette value, so the `|| themeColors.dark` fallback does not fire and
every color property read from the result is `undefined`; only names that
are neither own keys nor inherited fall back to the `dark` palette. -/
def lookupTheme (t : String) : ThemePalette :=
  match themeColors.lookup t with
  | some c => c
  | none => if t ∈ objectPrototypeProps then undefinedTheme else darkTheme

/-- Embeds `addPortfolioSkill` (src/script.js lines 1832-1841) acting on the
`portfolioSkills` array: trims the input, appends it when it is non-empty
and not already present (`indexOf(skill) === -1`). -/
def addPortfolioSkill (skills : List String) (input : String) : List String :=
  let skill := jsTrim input
  if skill ≠ "" ∧ skill ∉ skills then skills ++ [skill] else skills

/-- Embeds `removePortfolioSkill` (src/script.js lines 1843-1846):
`portfolioSkills.splice(index, 1)`. -/
def removePortfolioSkill (skills : List String) (index : Nat) : List String :=
  skills.eraseIdx index

/-- The alert text of src/script.js line 1859. -/
def certImageSizeLimitMsg : String := "Image file size should be less than 5MB"

/-- Embeds `addPortfolioCertificate` (src/script.js lines 1848-1879) acting
on `portfolioCertificates`. Returns the resulting list together with the
list of alert messages surfaced by the call. When an image is attached and
within the 5 MB limit, the source appends the certificate asynchronously in
the `FileReader` callback; the returned list is the state once that read has
completed. -/
def addPortfolioCertificate (certs : List Certificate)
    (rawName rawIssuer : String) (imageFile : Option ImageFile) :
    List Certificate × List String :=
  let name := jsTrim rawName
  let issuer := jsTrim rawIssuer
  if name ≠ "" ∧ issuer ≠ "" then
    match imageFile with
    | some f =>
      if f.size > 5 * 1024 * 1024 then
        (certs, [certImageSizeLimitMsg])
      else
        (certs ++ [{ name := name, issuer := issuer, image := some f.dataURL }], [])
    | none => (certs ++ [{ name := name, issuer := issuer, image := none }], [])
  else (certs, [])

/-- Embeds `removePortfolioCert` (src/script.js lines 1889-1892):
`portfolioCertificates.splice(index, 1)`. -/
def removePortfolioCert (certs : List Certificate) (index : Nat) :
    List Certificate :=
  certs.eraseIdx index

/-- Embeds `addPortfolioWork` (src/script.js lines 1894-1906) acting on
`portfolioWorkExperience`. -/
def addPortfolioWork (ws : List WorkEntry)
    (rawTitle rawCompany rawDesc : String) : List WorkEntry :=
  let title := jsTrim rawTitle
  let company := jsTrim rawCompany
  let desc := jsTrim rawDesc
  if title ≠ "" ∧ company ≠ "" then
    ws ++ [{ title := title, company := company, desc := desc }]
  else ws

/-- Embeds `removePortfolioWork` (src/script.js lines 1916-1919):
`portfolioWorkExperience.splice(index, 1)`. -/
def removePortfolioWork (ws : List WorkEntry) (index : Nat) : List WorkEntry :=
  ws.eraseIdx index

/-- The wizard session state: the step counter and accumulated lists of
src/script.js lines 1753-1758, together with the form inputs the validation
reads from the page. `formInputs` holds, per step (0-indexed by
`step - 1`), the values of the `required` inputs inside that step's
section, in document order; the step markup itself lives in the page HTML,
which is not under src/. `currentStep` is an integer with no bounds imposed
by the code itself. -/
structure WizardState where
  currentStep : Int
  formInputs : List (List String)
  selectedDomain : String
  selectedTheme : String
  skills : List String
  certificates : List Certificate
  workExperience : List WorkEntry
  projectCount : Nat
deriving DecidableEq

/-- Values of the required inputs within the section `[data-step="step"]`
(src/script.js lines 1804-1805). -/
def stepRequiredInputs (s : WizardState) (step : Int) : List String :=
  s.formInputs.getD (step - 1).toNat []

/-- The scanning loop of src/script.js lines 1807-1813: index of the first
required input whose trimmed value is empty, if any. -/
def firstEmptyRequiredIdx (inputs : List String) : Option Nat :=
  match inputs with
  | [] => none
  | v :: rest =>
    if jsTrim v = "" then some 0 else (firstEmptyRequiredIdx rest).map (· + 1)

/-- Outcome of `validatePortfolioStep`: success, first empty required field,
or no domain selected on step 2. -/
inductive StepValidationResult where
  | ok : StepValidationResult
  | emptyField : Nat → StepValidationResult
  | missingDomain : StepValidationResult
deriving DecidableEq

/-- Embeds `validatePortfolioStep` (src/script.js lines 1803-1821), keeping
which failure occurred: the loop alerts and focuses the first empty required
input and returns false; otherwise on step 2 with no chosen domain it alerts
and returns false; otherwise it returns true. -/
def validatePortfolioStepFull (s : WizardState) (step : Int) :
    StepValidationResult :=
  match firstEmptyRequiredIdx (stepRequiredInputs s step) with
  | some i => .emptyField i
  | none =>
    if step = 2 ∧ s.selectedDomain = "" then .missingDomain else .ok

/-- The `alert` messages surfaced by one `validatePortfolioStep` call
(src/script.js lines 1809 and 1816). -/
def validationAlerts : StepValidationResult → List String
  | .ok => []
  | .emptyField _ => ["Please fill in all required fields"]
  | .missingDomain => ["Please select a domain"]

/-- The input receiving focus on failure (src/script.js line 1810): the
first empty required field; the missing-domain failure focuses nothing. -/
def validationFocus : StepValidationResult → Option Nat
  | .emptyField i => some i
  | _ => none

/-- The boolean result of `validatePortfolioStep`. -/
def validatePortfolioStep (s : WizardState) (step : Int) : Bool :=
  match validatePortfolioStepFull s step with
  | .ok => true
  | _ => false

/-- Embeds `nextPortfolioStep` (src/script.js lines 1791-1796): increments
`portfolioCurrentStep` only when the current step validates. -/
def nextPortfolioStep (s : WizardState) : WizardState :=
  if validatePortfolioStep s s.currentStep then
    { s with currentStep := s.currentStep + 1 }
  else s

/-- Embeds `previousPortfolioStep` (src/script.js lines 1798-1801): an
unconditional decrement of `portfolioCurrentStep`. -/
def previousPortfolioStep (s : WizardState) : WizardState :=
  { s with currentStep := s.currentStep - 1 }

/-- `portfolioTotalSteps` of src/script.js line 1754. -/
def portfolioTotalSteps : Int := 8

/-- The state at the start of a session (src/script.js lines 1753-1758): step
1, no accumulated entries, one project sub-form, nothing selected, and all
form inputs empty. -/
def initialWizardState : WizardState :=
  { currentStep := 1, formInputs := List.replicate 8 [],
    selectedDomain := "", selectedTheme := "", skills := [],
    certificates := [], workExperience := [], projectCount := 1 }

/-- States reachable from `initialWizardState` by arbitrary sequences of
`nextPortfolioStep` and `previousPortfolioStep` calls. -/
inductive WizardReachable : WizardState → Prop where
  | init : WizardReachable initialWizardState
  | next {s : WizardState} :
      WizardReachable s → WizardReachable (nextPortfolioStep s)
  | prev {s : WizardState} :
      WizardReachable s → WizardReachable (previousPortfolioStep s)

/-- States reachable from `initialWizardState` by the step-button clicks the
page actually offers: `showPortfolioStep` (src/script.js lines 1786-1788)
hides the Previous button on step 1 and replaces the Next button by the
Create button on the last step, so `previousPortfolioStep` fires only when
`currentStep > 1` and `nextPortfolioStep` only when
`currentStep < portfolioTotalSteps`. -/
inductive WizardReachableUI : WizardState → Prop where
  | init : WizardReachableUI initialWizardState
  | next {s : WizardState} :
      WizardReachableUI s → s.currentStep < portfolioTotalSteps →
      WizardReachableUI (nextPortfolioStep s)
  | prev {s : WizardState} :
      WizardReachableUI s → 1 < s.currentStep →
      WizardReachableUI (previousPortfolioStep s)

/-!  The document generator, src/script.js lines 1986-2094.  Each string
chunk of the source is one definition here, escaped for Lean
(`\x7b`/`\x7d` are the literal braces of the CSS, `\x27` a literal
apostrophe); the loops become folds in source order. -/

/-- Embeds src/script.js line 1999 (loop body building `skillsHTML`). -/
def skillTagHTML (sk : String) : String :=
  "<span class=\"skill-tag\">"
    ++ sk
    ++ "</span>"

/-- The `skillsHTML` accumulation loop of src/script.js lines 1997-2000. -/
def skillsHTML (skills : List String) : String :=
  skills.foldl (fun acc sk => acc ++ skillTagHTML sk) ""

/-- Embeds src/script.js line 2007. -/
def projImgHTML (p : Project) : String :=
  "<img src=\""
    ++ p.image
    ++ "\" alt=\""
    ++ p.name
    ++ "\" class=\"project-img\">"

/-- Embeds src/script.js line 2009. -/
def projMidHTML (p : Project) : String :=
  "<div class=\"project-content\"><h3>"
    ++ p.name
    ++ "</h3><p>"
    ++ p.desc
    ++ "</p><div class=\"project-links\">"

/-- Embeds src/script.js line 2010. -/
def projLiveHTML (p : Project) : String :=
  "<a href=\""
    ++ p.link
    ++ "\" target=\"_blank\" class=\"project-btn\">Live Demo</a>"

/-- Embeds src/script.js line 2011. -/
def projGitHTML (p : Project) : String :=
  "<a href=\""
    ++ p.github
    ++ "\" target=\"_blank\" class=\"project-btn\">GitHub</a>"

/-- One project card: the loop body of src/script.js lines 2003-2013, with
the image and link pieces guarded by JS truthiness of the fields. -/
def projectCardHTML (p : Project) : String :=
  "<div class=\"project-card\">"
    ++ (if p.image ≠ "" then projImgHTML p else "")
    ++ projMidHTML p
    ++ (if p.link ≠ "" then projLiveHTML p else "")
    ++ (if p.github ≠ "" then projGitHTML p else "")
    ++ "</div></div></div>"

/-- The `projectsHTML` accumulation loop of src/script.js lines 2002-2013. -/
def projectsHTML (ps : List Project) : String :=
  ps.foldl (fun acc p => acc ++ projectCardHTML p) ""

/-- Embeds src/script.js line 2019. -/
def certImgHTML (cert : Certificate) (img : String) : String :=
  "<img src=\""
    ++ img
    ++ "\" alt=\""
    ++ cert.name
    ++ "\" class=\"cert-image\">"

/-- Embeds src/script.js line 2021. -/
def certIconHTML : String :=
  "<div class=\"cert-icon\">🏆</div>"

/-- Embeds src/script.js line 2023. -/
def certTailHTML (cert : Certificate) : String :=
  "<div><h4>"
    ++ cert.name
    ++ "</h4><p>"
    ++ cert.issuer
    ++ "</p></div></div>"

/-- One certificate entry: the loop body of src/script.js lines 2016-2024;
a missing or empty image yields the generic icon. -/
def certItemHTML (cert : Certificate) : String :=
  "<div class=\"cert-item\">"
    ++ (match cert.image with
        | some img => if img ≠ "" then certImgHTML cert img else certIconHTML
        | none => certIconHTML)
    ++ certTailHTML cert

/-- The `certsHTML` accumulation loop of src/script.js lines 2015-2024. -/
def certsHTML (cs : List Certificate) : String :=
  cs.foldl (fun acc cert => acc ++ certItemHTML cert) ""

/-- Embeds src/script.js line 2028 (loop body building `workHTML`). -/
def workItemHTML (w : WorkEntry) : String :=
  "<div class=\"work-item\"><h4>"
    ++ w.title
    ++ "</h4><p class=\"company\">"
    ++ w.company
    ++ "</p><p>"
    ++ w.desc
    ++ "</p></div>"

/-- The `workHTML` accumulation loop of src/script.js lines 2026-2029. -/
def workHTML (ws : List WorkEntry) : String :=
  ws.foldl (fun acc w => acc ++ workItemHTML w) ""

/-- Embeds src/script.js line 2031. -/
def docHeadPart1 (d : PortfolioData) (c : ThemePalette) : String :=
  "<!DOCTYPE html><html lang=\"en\"><head><meta charset=\"UTF-8\"><meta name=\"viewport\" content=\"width=device-width, initial-scale=1.0\"><title>"
    ++ d.fullName
    ++ " - Portfolio</title><style>*\x7bmargin:0;padding:0;box-sizing:border-box\x7dbody\x7bfont-family:\"Segoe UI\",system-ui,sans-serif;background:"
    ++ c.bg
    ++ ";color:"
    ++ c.text
    ++ ";line-height:1.6\x7da\x7bcolor:"
    ++ c.primary
    ++ ";text-decoration:none\x7d.container\x7bmax-width:1200px;margin:0 auto;padding:0 20px\x7dheader\x7bbackground:linear-gradient(135deg,"
    ++ c.primary
    ++ ","
    ++ c.secondary
    ++ ");padding:100px 20px;text-align:center;position:relative;overflow:hidden\x7dheader::before\x7bcontent:\"\";position:absolute;top:-50%;right:-50%;width:100%;height:100%;background:rgba(255,255,255,0.1);transform:rotate(45deg)\x7d"

/-- Embeds src/script.js line 2033. -/
def docHeadPart2 (c : ThemePalette) : String :=
  ".profile-img\x7bwidth:150px;height:150px;border-radius:50%;border:5px solid rgba(255,255,255,0.3);object-fit:cover;margin-bottom:20px\x7dh1\x7bfont-size:3rem;margin-bottom:10px;text-shadow:2px 2px 4px rgba(0,0,0,0.3)\x7d@media(max-width:768px)\x7bh1\x7bfont-size:2rem\x7d\x7d.tagline\x7bfont-size:1.3rem;opacity:0.95;margin-bottom:15px\x7d.bio\x7bmax-width:700px;margin:20px auto;opacity:0.9;font-size:1.1rem\x7dsection\x7bpadding:80px 20px\x7d.section-title\x7bfont-size:2.5rem;margin-bottom:40px;text-align:center;background:linear-gradient(135deg,"
    ++ c.primary
    ++ ","
    ++ c.secondary
    ++ ");-webkit-background-clip:text;-webkit-text-fill-color:transparent;background-clip:text\x7d"

/-- Embeds src/script.js line 2035. -/
def docHeadPart3 (c : ThemePalette) : String :=
  ".skills-grid\x7bdisplay:flex;flex-wrap:wrap;gap:15px;justify-content:center;max-width:800px;margin:0 auto\x7d.skill-tag\x7bbackground:"
    ++ c.cardBg
    ++ ";padding:12px 24px;border-radius:30px;border:2px solid "
    ++ c.primary
    ++ ";font-weight:500;transition:all 0.3s\x7d.skill-tag:hover\x7btransform:translateY(-3px);box-shadow:0 5px 15px rgba(102,126,234,0.3)\x7d"

/-- Embeds src/script.js line 2037. -/
def docHeadPart4 (c : ThemePalette) : String :=
  ".projects-grid\x7bdisplay:grid;grid-template-columns:repeat(auto-fit,minmax(350px,1fr));gap:30px;margin-top:40px\x7d.project-card\x7bbackground:"
    ++ c.cardBg
    ++ ";border-radius:15px;overflow:hidden;transition:transform 0.3s,box-shadow 0.3s;border:1px solid rgba(255,255,255,0.1)\x7d.project-card:hover\x7btransform:translateY(-10px);box-shadow:0 15px 40px rgba(0,0,0,0.3)\x7d.project-img\x7bwidth:100%;height:200px;object-fit:cover\x7d.project-content\x7bpadding:25px\x7d.project-content h3\x7bcolor:"
    ++ c.primary
    ++ ";margin-bottom:10px;font-size:1.5rem\x7d.project-content p\x7bopacity:0.9;margin-bottom:15px\x7d.project-links\x7bdisplay:flex;gap:10px;margin-top:15px\x7d.project-btn\x7bbackground:"
    ++ c.primary
    ++ ";color:#fff;padding:10px 20px;border-radius:8px;transition:all 0.3s\x7d.project-btn:hover\x7bbackground:"
    ++ c.secondary
    ++ ";transform:scale(1.05)\x7d"

/-- Embeds src/script.js line 2039. -/
def docHeadPart5 (c : ThemePalette) : String :=
  ".certs-grid\x7bdisplay:grid;grid-template-columns:repeat(auto-fit,minmax(300px,1fr));gap:25px;max-width:1000px;margin:0 auto\x7d.cert-item\x7bbackground:"
    ++ c.cardBg
    ++ ";padding:25px;border-radius:12px;display:flex;gap:20px;align-items:center;border-left:4px solid "
    ++ c.primary
    ++ "\x7d.cert-icon\x7bfont-size:2.5rem\x7d.cert-image\x7bwidth:80px;height:80px;object-fit:cover;border-radius:8px;border:2px solid "
    ++ c.primary
    ++ ";flex-shrink:0\x7d.cert-item h4\x7bcolor:"
    ++ c.primary
    ++ ";margin-bottom:5px\x7d.cert-item p\x7bopacity:0.8;font-size:0.95rem\x7d"

/-- Embeds src/script.js line 2041. -/
def docHeadPart6 (c : ThemePalette) : String :=
  ".work-timeline\x7bmax-width:800px;margin:0 auto\x7d.work-item\x7bbackground:"
    ++ c.cardBg
    ++ ";padding:30px;border-radius:12px;margin-bottom:25px;border-left:4px solid "
    ++ c.primary
    ++ "\x7d.work-item h4\x7bcolor:"
    ++ c.primary
    ++ ";font-size:1.4rem;margin-bottom:8px\x7d.company\x7bfont-weight:600;opacity:0.9;margin-bottom:10px\x7d.work-item p\x7bopacity:0.85\x7d"

/-- Embeds src/script.js line 2043. -/
def docHeadPart7 (c : ThemePalette) : String :=
  ".contact-section\x7bbackground:"
    ++ c.cardBg
    ++ ";border-radius:20px;padding:50px;text-align:center;margin:40px auto;max-width:800px\x7d.contact-grid\x7bdisplay:flex;flex-wrap:wrap;gap:20px;justify-content:center;margin-top:30px\x7d.contact-item\x7bbackground:rgba(255,255,255,0.05);padding:15px 30px;border-radius:10px;display:flex;align-items:center;gap:10px;transition:all 0.3s;border:1px solid rgba(255,255,255,0.1)\x7d.contact-item:hover\x7bbackground:"
    ++ c.primary
    ++ ";transform:translateY(-3px)\x7d"

/-- Embeds src/script.js line 2045. -/
def docHeadPart8 : String :=
  "footer\x7btext-align:center;padding:40px;opacity:0.7;border-top:1px solid rgba(255,255,255,0.1)\x7d@media(max-width:768px)\x7b.projects-grid,.certs-grid\x7bgrid-template-columns:1fr\x7d.section-title\x7bfont-size:2rem\x7dsection\x7bpadding:50px 20px\x7d\x7d</style></head><body>"

/-- Embeds src/script.js line 2047. -/
def headerOpenHTML : String :=
  "<header><div class=\"container\">"

/-- Embeds src/script.js line 2049. -/
def headerImgHTML (d : PortfolioData) : String :=
  "<img src=\""
    ++ d.profileImage
    ++ "\" alt=\""
    ++ d.fullName
    ++ "\" class=\"profile-img\">"

/-- Embeds src/script.js line 2051. -/
def headerNameHTML (d : PortfolioData) : String :=
  "<h1>"
    ++ d.fullName
    ++ "</h1><p class=\"tagline\">"
    ++ d.title
    ++ "</p>"

/-- Embeds src/script.js line 2053. -/
def headerExpHTML (d : PortfolioData) : String :=
  "<p style=\"opacity:0.9;margin-top:10px\">🎯 "
    ++ d.experience
    ++ " Experience</p>"

/-- Embeds src/script.js line 2056. -/
def headerBioHTML (d : PortfolioData) : String :=
  "<p class=\"bio\">"
    ++ d.bioText
    ++ "</p>"

/-- Embeds src/script.js line 2058. -/
def headerCloseHTML : String :=
  "</div></header>"

/-- The header block, src/script.js lines 2047-2058: profile image,
experience line and bio are guarded by JS truthiness of their fields. -/
def headerSection (d : PortfolioData) : String :=
  headerOpenHTML
    ++ (if d.profileImage ≠ "" then headerImgHTML d else "")
    ++ headerNameHTML d
    ++ (if d.experience ≠ "" then headerExpHTML d else "")
    ++ (if d.bioText ≠ "" then headerBioHTML d else "")
    ++ headerCloseHTML

/-- Embeds src/script.js line 2063 (the appended section markup). -/
def skillsSectionBody (d : PortfolioData) : String :=
  "<section><h2 class=\"section-title\">Skills & Expertise</h2><div class=\"skills-grid\">"
    ++ skillsHTML d.skills
    ++ "</div></section>"

/-- The skills section including its guard `data.skills.length > 0`
(src/script.js lines 2062-2064). -/
def skillsSection (d : PortfolioData) : String :=
  if d.skills.length > 0 then skillsSectionBody d else ""

/-- Embeds src/script.js line 2067 (the appended section markup). -/
def projectsSectionBody (d : PortfolioData) : String :=
  "<section><h2 class=\"section-title\">Featured Projects</h2><div class=\"projects-grid\">"
    ++ projectsHTML d.projects
    ++ "</div></section>"

/-- The projects section including its guard `data.projects.length > 0`
(src/script.js lines 2066-2068). -/
def projectsSection (d : PortfolioData) : String :=
  if d.projects.length > 0 then projectsSectionBody d else ""

/-- Embeds src/script.js line 2071 (the appended section markup). -/
def workSectionBody (d : PortfolioData) : String :=
  "<section><h2 class=\"section-title\">Work Experience</h2><div class=\"work-timeline\">"
    ++ workHTML d.workExperience
    ++ "</div></section>"

/-- The work-experience section including its guard
`data.workExperience.length > 0` (src/script.js lines 2070-2072). -/
def workSection (d : PortfolioData) : String :=
  if d.workExperience.length > 0 then workSectionBody d else ""

/-- Embeds src/script.js line 2075 (the appended section markup). -/
def certsSectionBody (d : PortfolioData) : String :=
  "<section><h2 class=\"section-title\">Certificates & Achievements</h2><div class=\"certs-grid\">"
    ++ certsHTML d.certificates
    ++ "</div></section>"

/-- The certificates section including its guard
`data.certificates.length > 0` (src/script.js lines 2074-2076). -/
def certsSection (d : PortfolioData) : String :=
  if d.certificates.length > 0 then certsSectionBody d else ""

/-- Embeds src/script.js line 2079 (the appended section markup). -/
def educationSectionBody (d : PortfolioData) (c : ThemePalette) : String :=
  "<section><h2 class=\"section-title\">Education</h2><div style=\"max-width:600px;margin:0 auto;background:"
    ++ c.cardBg
    ++ ";padding:25px;border-radius:12px;border-left:4px solid "
    ++ c.primary
    ++ "\"><p style=\"font-size:1.1rem\">"
    ++ d.education
    ++ "</p></div></section>"

/-- The education section including its truthiness guard `data.education`
(src/script.js lines 2078-2080). -/
def educationSection (d : PortfolioData) (c : ThemePalette) : String :=
  if d.education ≠ "" then educationSectionBody d c else ""

/-- Embeds src/script.js line 2082. -/
def contactOpenHTML : String :=
  "<section class=\"contact-section\"><h2 class=\"section-title\">Get In Touch</h2><p style=\"opacity:0.9;margin-bottom:20px\">Let\x27s connect and discuss opportunities!</p><div class=\"contact-grid\">"

/-- Embeds the appended piece of src/script.js line 2084. -/
def contactEmailItemHTML (d : PortfolioData) : String :=
  "<a href=\"mailto:"
    ++ d.email
    ++ "\" class=\"contact-item\">📧 Email</a>"

/-- The email channel entry including its guard (src/script.js line 2084). -/
def contactEmailHTML (d : PortfolioData) : String :=
  if d.email ≠ "" then contactEmailItemHTML d else ""

/-- Embeds the appended piece of src/script.js line 2085. -/
def contactPhoneItemHTML (d : PortfolioData) : String :=
  "<a href=\"tel:"
    ++ d.phone
    ++ "\" class=\"contact-item\">📱 Phone</a>"

/-- The phone channel entry including its guard (src/script.js line 2085). -/
def contactPhoneHTML (d : PortfolioData) : String :=
  if d.phone ≠ "" then contactPhoneItemHTML d else ""

/-- Embeds the appended piece of src/script.js line 2086. -/
def contactLocationItemHTML (d : PortfolioData) : String :=
  "<span class=\"contact-item\">📍 "
    ++ d.location
    ++ "</span>"

/-- The location entry including its guard (src/script.js line 2086). -/
def contactLocationHTML (d : PortfolioData) : String :=
  if d.location ≠ "" then contactLocationItemHTML d else ""

/-- Embeds the appended piece of src/script.js line 2087. -/
def contactLinkedinItemHTML (d : PortfolioData) : String :=
  "<a href=\""
    ++ d.linkedin
    ++ "\" target=\"_blank\" class=\"contact-item\">💼 LinkedIn</a>"

/-- The LinkedIn entry including its guard (src/script.js line 2087). -/
def contactLinkedinHTML (d : PortfolioData) : String :=
  if d.linkedin ≠ "" then contactLinkedinItemHTML d else ""

/-- Embeds the appended piece of src/script.js line 2088. -/
def contactGithubItemHTML (d : PortfolioData) : String :=
  "<a href=\""
    ++ d.github
    ++ "\" target=\"_blank\" class=\"contact-item\">💻 GitHub</a>"

/-- The GitHub entry including its guard (src/script.js line 2088). -/
def contactGithubHTML (d : PortfolioData) : String :=
  if d.github ≠ "" then contactGithubItemHTML d else ""

/-- Embeds the appended piece of src/script.js line 2089. -/
def contactWebsiteItemHTML (d : PortfolioData) : String :=
  "<a href=\""
    ++ d.website
    ++ "\" target=\"_blank\" class=\"contact-item\">🌐 Website</a>"

/-- The website entry including its guard (src/script.js line 2089). -/
def contactWebsiteHTML (d : PortfolioData) : String :=
  if d.website ≠ "" then contactWebsiteItemHTML d else ""

/-- Embeds the appended piece of src/script.js line 2090. -/
def contactTwitterItemHTML (d : PortfolioData) : String :=
  "<a href=\""
    ++ d.twitter
    ++ "\" target=\"_blank\" class=\"contact-item\">🐦 Twitter</a>"

/-- The social-handle entry including its guard (src/script.js line 2090). -/
def contactTwitterHTML (d : PortfolioData) : String :=
  if d.twitter ≠ "" then contactTwitterItemHTML d else ""

/-- Embeds src/script.js line 2092 (also closes the container `div`). -/
def contactCloseHTML : String :=
  "</div></section></div>"

/-- The contact section, src/script.js lines 2082-2092: the section and its
heading are emitted unconditionally; each channel entry only when its field
is truthy. -/
def contactSection (d : PortfolioData) : String :=
  contactOpenHTML
    ++ contactEmailHTML d
    ++ contactPhoneHTML d
    ++ contactLocationHTML d
    ++ contactLinkedinHTML d
    ++ contactGithubHTML d
    ++ contactWebsiteHTML d
    ++ contactTwitterHTML d
    ++ contactCloseHTML

/-- Embeds src/script.js line 2094. -/
def footerHTML (d : PortfolioData) : String :=
  "<footer><p>© 2024 "
    ++ d.fullName
    ++ ". All rights reserved.</p><p style=\"margin-top:10px;font-size:0.9rem\">Built with Professional Portfolio Builder</p></footer></body></html>"

/-- The full document for a resolved palette: the concatenation of
src/script.js lines 2031-2094 in source order. -/
def generatePortfolioHTMLWith (d : PortfolioData) (c : ThemePalette) : String :=
  docHeadPart1 d c
    ++ docHeadPart2 c
    ++ docHeadPart3 c
    ++ docHeadPart4 c
    ++ docHeadPart5 c
    ++ docHeadPart6 c
    ++ docHeadPart7 c
    ++ docHeadPart8
    ++ headerSection d
    ++ "<div class=\"container\">"
    ++ skillsSection d
    ++ projectsSection d
    ++ workSection d
    ++ certsSection d
    ++ educationSection d c
    ++ contactSection d
    ++ footerHTML d

/-- Embeds `generatePortfolioHTML` (src/script.js lines 1986-2094): resolve
the palette from the snapshot's theme, then build the document string. -/
def generatePortfolioHTML (d : PortfolioData) : String :=
  generatePortfolioHTMLWith d (lookupTheme d.theme)

/-- Embeds the reset block of src/script.js lines 2119-2133: the form is
reset (all inputs, including the hidden domain and theme inputs, return to
their empty defaults), the three arrays are emptied, `projectCount` and
`currentStep` return to 1. -/
def resetPortfolioBuilder (s : WizardState) : WizardState :=
  { s with
    currentStep := 1,
    formInputs := List.replicate 8 [],
    selectedDomain := "",
    selectedTheme := "",
    skills := [],
    certificates := [],
    workExperience := [],
    projectCount := 1 }

/-- Embeds the tail of `generatePortfolioHTML` (src/script.js lines
2096-2133): the download fires only when the preview window opened and the
user confirmed; the modal close and the state reset run regardless. Returns
the state after the reset together with whether the download was started. -/
def createPortfolioFinish (s : WizardState)
    (windowOpened confirmDownload : Bool) : WizardState × Bool :=
  (resetPortfolioBuilder s, windowOpened && confirmDownload)

/-- Substring containment, stated by explicit decomposition: `m` occurs in
`s` when `s` splits as `a ++ m ++ b`. -/
def containsStr (s m : String) : Prop :=
  ∃ a b, s = a ++ m ++ b

/-- A concrete snapshot used to instantiate the theorems below. -/
def sampleSnapshot : PortfolioData :=
  { fullName := "Ada Lovelace", email := "ada@example.com",
    title := "Engineer", bioText := "I build things.", profileImage := "",
    domain := "web", experience := "2-5 years", skills := ["Lean"],
    projects := [], certificates := [], workExperience := [],
    education := "BTech", phone := "", location := "London", linkedin := "",
    github := "", website := "", twitter := "", theme := "green" }

/-- The sample snapshot with every optional section's data emptied. -/
def sampleEmptySnapshot : PortfolioData :=
  { sampleSnapshot with
    skills := [],
    projects := [],
    certificates := [],
    workExperience := [],
    education := "" }

/-- The sample snapshot with a theme name that is an inherited
`Object.prototype` property rather than an own key of `themeColors`. -/
def sampleProtoSnapshot : PortfolioData :=
  { sampleSnapshot with theme := "constructor" }

/-- A wizard state whose first step has one required input left blank. -/
def sampleInvalidState : WizardState :=
  { initialWizardState with
    formInputs := [[""], [], [], [], [], [], [], []] }

/-- An attached certificate image one byte over the 5 MB limit. -/
def sampleOversizeImage : ImageFile :=
  { size := 5 * 1024 * 1024 + 1, dataURL := "data:image/png;base64,AAAA" }

/-- A sample certificate entry. -/
def sampleCert : Certificate :=
  { name := "Cloud Practitioner", issuer := "AWS", image := none }

/-- A sample work-experience entry. -/
def sampleWork : WorkEntry :=
  { title := "Engineer", company := "Acme", desc := "Built tools" }

/-- Helper: a concatenation whose left part is non-empty is non-empty. -/
theorem append_ne_empty_left {a : String} (b : String) (h : a ≠ "") :
    a ++ b ≠ "" := by
  intro hc
  have hlen := congrArg String.length hc
  rw [String.length_append] at hlen
  have h0 : ("" : String).length = 0 := rfl
  rw [h0] at hlen
  have ha : a.length = 0 := by omega
  exact h (String.ext (List.length_eq_zero.mp ha))

/-- Helper: a string contains itself. -/
theorem containsStr_refl (s : String) : containsStr s s :=
  ⟨"", "", by simp⟩

/-- Helper: containment is preserved by appending on the right. -/
theorem containsStr_left {s m : String} (t : String) (h : containsStr s m) :
    containsStr (s ++ t) m := by
  obtain ⟨a, b, rfl⟩ := h
  exact ⟨a, b ++ t, by simp [String.append_assoc]⟩

/-- Helper: containment is preserved by appending on the left. -/
theorem containsStr_right {t m : String} (s : String) (h : containsStr t m) :
    containsStr (s ++ t) m := by
  obtain ⟨a, b, rfl⟩ := h
  exact ⟨s ++ a, b, by simp [String.append_assoc]⟩

/-- Helper: containment in the two right parts of a left-nested
concatenation lifts to the whole. -/
theorem containsStr_right_assoc {a b c m : String}
    (h : containsStr (b ++ c) m) : containsStr ((a ++ b) ++ c) m := by
  rw [String.append_assoc]
  exact containsStr_right _ h

/-- Helper: containment is transitive through an intermediate substring. -/
theorem containsStr_trans {s t m : String} (h1 : containsStr s t)
    (h2 : containsStr t m) : containsStr s m := by
  obtain ⟨a, b, rfl⟩ := h1
  obtain ⟨x, y, rfl⟩ := h2
  exact ⟨a ++ x, y ++ b, by simp [String.append_assoc]⟩

/-- Helper: a guarded chunk is non-empty exactly when its guard holds,
provided the guarded body is non-empty. -/
theorem if_body_ne_empty_iff (cond : Prop) [Decidable cond] (body : String)
    (hbody : body ≠ "") : ((if cond then body else "") ≠ "") ↔ cond := by
  by_cases h : cond
  · simp [h, hbody]
  · simp [h]

/-- Claim C2, counterexample: from the initial state (currentStep = 1), a
single `previousPortfolioStep` call is a legal sequence of the two
operations and drives `currentStep` to 0, below the claimed lower bound 1 —
the source decrements unconditionally. -/
theorem c2_counterexample :
    WizardReachable (previousPortfolioStep initialWizardState) ∧
    (previousPortfolioStep initialWizardState).currentStep = 0 ∧
    ¬ 1 ≤ (previousPortfolioStep initialWizardState).currentStep :=
  ⟨WizardReachable.prev WizardReachable.init, by decide, by decide⟩

/-- Claim C2, amended: in every wizard state reachable from the initial
state by advance and retreat operations fired only when the corresponding
step button is shown (`previousPortfolioStep` only when `currentStep > 1`,
`nextPortfolioStep` only when `currentStep < portfolioTotalSteps`, the
discipline `showPortfolioStep` enforces through button visibility),
`currentStep` stays within 1 and 8 inclusive. -/
theorem c2_step_bounds (s : WizardState) (h : WizardReachableUI s) :
    1 ≤ s.currentStep ∧ s.currentStep ≤ portfolioTotalSteps := by
  have h8 : portfolioTotalSteps = (8 : Int) := rfl
  induction h with
  | init => exact ⟨by decide, by decide⟩
  | @next t hr hlt ih =>
    rw [h8] at hlt ih ⊢
    obtain ⟨ih1, ih2⟩ := ih
    unfold nextPortfolioStep
    split
    · show 1 ≤ t.currentStep + 1 ∧ t.currentStep + 1 ≤ (8 : Int)
      omega
    · exact ⟨ih1, ih2⟩
  | @prev t hr hlt ih =>
    rw [h8] at ih ⊢
    obtain ⟨ih1, ih2⟩ := ih
    unfold previousPortfolioStep
    show 1 ≤ t.currentStep - 1 ∧ t.currentStep - 1 ≤ (8 : Int)
    omega

/-- Witness for the amended C2 bound at the initial state. -/
theorem c2_step_bounds_witness :
    1 ≤ initialWizardState.currentStep ∧
    initialWizardState.currentStep ≤ portfolioTotalSteps :=
  c2_step_bounds initialWizardState WizardReachableUI.init

/-- Claim C4: adding a skill whose trimmed form is empty or already present
leaves the list unchanged; adding preserves freedom from duplicates; and on
a list holding at most one occurrence of the trimmed value (as every
reachable skill list does), adding the same string twice leaves exactly one
occurrence of its trimmed form. -/
theorem c4_add_skill_dedup (skills : List String) (value : String) :
    ((jsTrim value = "" ∨ jsTrim value ∈ skills) →
      addPortfolioSkill skills value = skills) ∧
    (skills.Nodup → (addPortfolioSkill skills value).Nodup) ∧
    (jsTrim value ≠ "" → skills.count (jsTrim value) ≤ 1 →
      (addPortfolioSkill (addPortfolioSkill skills value) value).count
        (jsTrim value) = 1) := by
  refine ⟨?_, ?_, ?_⟩
  · intro h
    unfold addPortfolioSkill
    rcases h with h | h
    · rw [if_neg (by simp [h])]
    · rw [if_neg (by simp [h])]
  · intro hn
    simp only [addPortfolioSkill]
    split
    · next hc => simp [List.nodup_append, hn, hc.2]
    · exact hn
  · intro hne hcount
    by_cases hmem : jsTrim value ∈ skills
    · have h1 : addPortfolioSkill skills value = skills := by
        unfold addPortfolioSkill
        rw [if_neg (by simp [hmem])]
      rw [h1, h1]
      have hpos : 0 < skills.count (jsTrim value) :=
        List.count_pos_iff.mpr hmem
      omega
    · have h1 : addPortfolioSkill skills value = skills ++ [jsTrim value] := by
        unfold addPortfolioSkill
        rw [if_pos ⟨hne, hmem⟩]
      have hmem2 : jsTrim value ∈ skills ++ [jsTrim value] := by simp
      have h2 : addPortfolioSkill (skills ++ [jsTrim value]) value =
          skills ++ [jsTrim value] := by
        unfold addPortfolioSkill
        rw [if_neg (fun hc => hc.2 hmem2)]
      rw [h1, h2]
      simp [List.count_eq_zero.mpr hmem]

/-- Witness for C4 at a concrete input: adding " Lean " twice to the empty
list yields exactly one occurrence of "Lean". -/
theorem c4_add_skill_dedup_witness :
    (addPortfolioSkill (addPortfolioSkill [] " Lean ") " Lean ").count
      (jsTrim " Lean ") = 1 :=
  (c4_add_skill_dedup [] " Lean ").2.2 (by decide) (by decide)

/-- Claim C5: for each of the three lists, removal at a valid position `i`
yields the original list with the element at `i` excised and all later
elements shifted down (the `take`/`drop` decomposition). -/
theorem c5_remove_at_index (skills : List String) (certs : List Certificate)
    (ws : List WorkEntry) (i j k : Nat) (hi : i < skills.length)
    (hj : j < certs.length) (hk : k < ws.length) :
    removePortfolioSkill skills i = skills.take i ++ skills.drop (i + 1) ∧
    removePortfolioCert certs j = certs.take j ++ certs.drop (j + 1) ∧
    removePortfolioWork ws k = ws.take k ++ ws.drop (k + 1) :=
  ⟨List.eraseIdx_eq_take_drop_succ skills i,
   List.eraseIdx_eq_take_drop_succ certs j,
   List.eraseIdx_eq_take_drop_succ ws k⟩

/-- Witness for C5 at concrete lists and positions. -/
theorem c5_remove_at_index_witness :
    removePortfolioSkill ["a", "b", "c"] 1 =
      (["a", "b", "c"] : List String).take 1 ++
        (["a", "b", "c"] : List String).drop 2 ∧
    removePortfolioCert [sampleCert] 0 =
      ([sampleCert].take 0 ++ [sampleCert].drop 1 : List Certificate) ∧
    removePortfolioWork [sampleWork] 0 =
      ([sampleWork].take 0 ++ [sampleWork].drop 1 : List WorkEntry) :=
  c5_remove_at_index ["a", "b", "c"] [sampleCert] [sampleWork] 1 0 0
    (by decide) (by decide) (by decide)

/-- Claim C6: a certificate add with non-empty trimmed name and issuer and
an attached image over 5 MB leaves the certificate list unchanged and
surfaces exactly the one size-limit message; nothing else is recorded. -/
theorem c6_cert_image_size_limit (certs : List Certificate)
    (rawName rawIssuer : String) (f : ImageFile)
    (hn : jsTrim rawName ≠ "") (hi : jsTrim rawIssuer ≠ "")
    (hs : f.size > 5 * 1024 * 1024) :
    addPortfolioCertificate certs rawName rawIssuer (some f) =
      (certs, [certImageSizeLimitMsg]) := by
  simp only [addPortfolioCertificate]
  rw [if_pos ⟨hn, hi⟩, if_pos hs]

/-- Witness for C6 at a concrete oversize attachment. -/
theorem c6_cert_image_size_limit_witness :
    addPortfolioCertificate [] "Cloud Practitioner" "AWS"
      (some sampleOversizeImage) = ([], [certImageSizeLimitMsg]) :=
  c6_cert_image_size_limit [] "Cloud Practitioner" "AWS" sampleOversizeImage
    (by decide) (by decide) (by decide)

/-- Claim C9: after generation finishes, whatever the preview and download
outcomes, the wizard state equals the initial empty state: empty skills,
certificates and work-experience lists, projectCount 1 and currentStep 1. -/
theorem c9_reset_after_generation (s : WizardState)
    (windowOpened confirmDownload : Bool) :
    (createPortfolioFinish s windowOpened confirmDownload).1 =
      initialWizardState ∧
    (createPortfolioFinish s windowOpened confirmDownload).1.skills = [] ∧
    (createPortfolioFinish s windowOpened confirmDownload).1.certificates
      = [] ∧
    (createPortfolioFinish s windowOpened confirmDownload).1.workExperience
      = [] ∧
    (createPortfolioFinish s windowOpened confirmDownload).1.projectCount
      = 1 ∧
    (createPortfolioFinish s windowOpened confirmDownload).1.currentStep
      = 1 :=
  ⟨rfl, rfl, rfl, rfl, rfl, rfl⟩

/-- Helper: the scan finds nothing exactly when every required input has a
non-empty trimmed value. -/
theorem firstEmptyRequiredIdx_eq_none (inputs : List String) :
    firstEmptyRequiredIdx inputs = none ↔ ∀ v ∈ inputs, jsTrim v ≠ "" := by
  induction inputs with
  | nil => simp [firstEmptyRequiredIdx]
  | cons v rest ih =>
    by_cases hv : jsTrim v = ""
    · simp [firstEmptyRequiredIdx, hv]
    · simp [firstEmptyRequiredIdx, hv, ih]

/-- Helper: a found index exhibits an input with empty trimmed value. -/
theorem firstEmptyRequiredIdx_exists_of_some (inputs : List String) (i : Nat)
    (h : firstEmptyRequiredIdx inputs = some i) :
    ∃ v ∈ inputs, jsTrim v = "" := by
  induction inputs generalizing i with
  | nil => simp [firstEmptyRequiredIdx] at h
  | cons v rest ih =>
    by_cases hv : jsTrim v = ""
    · exact ⟨v, List.mem_cons_self v rest, hv⟩
    · simp [firstEmptyRequiredIdx, hv] at h
      obtain ⟨j, hj, _⟩ := h
      obtain ⟨w, hw, hwe⟩ := ih j hj
      exact ⟨w, List.mem_cons_of_mem v hw, hwe⟩

/-- Helper: the scan returns the least index whose input trims to empty. -/
theorem firstEmptyRequiredIdx_first (inputs : List String) (i : Nat)
    (hi : i < inputs.length) (hp : jsTrim (inputs.getD i "") = "")
    (hfirst : ∀ j, j < i → jsTrim (inputs.getD j "") ≠ "") :
    firstEmptyRequiredIdx inputs = some i := by
  induction inputs generalizing i with
  | nil => simp at hi
  | cons v rest ih =>
    cases i with
    | zero => simp_all [firstEmptyRequiredIdx]
    | succ n =>
      have hv : jsTrim v ≠ "" := by
        have := hfirst 0 (Nat.succ_pos n)
        simpa using this
      have hrec : firstEmptyRequiredIdx rest = some n := by
        apply ih n (by simpa using hi) (by simpa using hp)
        intro j hj
        have := hfirst (j + 1) (by omega)
        simpa using this
      simp [firstEmptyRequiredIdx, hv, hrec]

/-- Claim C3: for every step in range, validation fails exactly when some
required field of the step trims to empty, or the step is the
domain-selection step (2) with no chosen domain; a failure surfaces exactly
one alert; the focused field is the first offending one; and a failed
validation leaves the state — in particular `currentStep` — unchanged under
`nextPortfolioStep`. -/
theorem c3_step_validation (s : WizardState) (step : Int)
    (hlo : 1 ≤ step) (hhi : step ≤ portfolioTotalSteps) :
    (validatePortfolioStep s step = false ↔
      ((∃ v ∈ stepRequiredInputs s step, jsTrim v = "") ∨
        (step = 2 ∧ s.selectedDomain = ""))) ∧
    (validatePortfolioStep s step = false →
      (validationAlerts (validatePortfolioStepFull s step)).length = 1) ∧
    (∀ i, i < (stepRequiredInputs s step).length →
      jsTrim ((stepRequiredInputs s step).getD i "") = "" →
      (∀ j, j < i → jsTrim ((stepRequiredInputs s step).getD j "") ≠ "") →
      validationFocus (validatePortfolioStepFull s step) = some i) ∧
    (validatePortfolioStep s s.currentStep = false →
      nextPortfolioStep s = s) := by
  refine ⟨?_, ?_, ?_, ?_⟩
  · cases hf : firstEmptyRequiredIdx (stepRequiredInputs s step) with
    | some i =>
      have hex := firstEmptyRequiredIdx_exists_of_some _ i hf
      simp [validatePortfolioStep, validatePortfolioStepFull, hf, hex]
    | none =>
      have hall := (firstEmptyRequiredIdx_eq_none _).mp hf
      by_cases hd : step = 2 ∧ s.selectedDomain = ""
      · obtain ⟨h2, hdom⟩ := hd
        subst h2
        simp [validatePortfolioStep, validatePortfolioStepFull, hf, hdom]
      · simp [validatePortfolioStep, validatePortfolioStepFull, hf, hd]
        intro v hv
        exact hall v hv
  · intro hfalse
    cases hfull : validatePortfolioStepFull s step with
    | ok =>
      unfold validatePortfolioStep at hfalse
      rw [hfull] at hfalse
      simp at hfalse
    | emptyField i => simp [validationAlerts, hfull]
    | missingDomain => simp [validationAlerts, hfull]
  · intro i hilen hp hfirst
    have hf : firstEmptyRequiredIdx (stepRequiredInputs s step) = some i :=
      firstEmptyRequiredIdx_first _ i hilen hp hfirst
    simp [validationFocus, validatePortfolioStepFull, hf]
  · intro hfalse
    unfold nextPortfolioStep
    rw [if_neg (by simp [hfalse])]

/-- Witness for C3: a state whose first step holds one blank required input
fails validation of step 1. -/
theorem c3_step_validation_witness :
    validatePortfolioStep sampleInvalidState 1 = false :=
  (c3_step_validation sampleInvalidState 1 (by decide) (by decide)).1.mpr
    (Or.inl ⟨"", by decide, by decide⟩)

/-- Helper: the style head embeds the palette's primary color (it appears in
the `a` rule and the header gradient of src/script.js line 2031). -/
theorem docHeadPart1_contains_primary (d : PortfolioData) (c : ThemePalette) :
    containsStr (docHeadPart1 d c) c.primary := by
  unfold docHeadPart1
  exact containsStr_left _ (containsStr_left _ (containsStr_left _
    (containsStr_right _ (containsStr_refl _))))

/-- Helper: the style head embeds the palette's secondary color (the header
gradient of src/script.js line 2031). -/
theorem docHeadPart1_contains_secondary (d : PortfolioData)
    (c : ThemePalette) : containsStr (docHeadPart1 d c) c.secondary := by
  unfold docHeadPart1
  exact containsStr_left _ (containsStr_right _ (containsStr_refl _))

/-- Helper: whatever the first style chunk contains, the whole document
contains. -/
theorem generate_contains_of_docHeadPart1 {m : String} (d : PortfolioData)
    (h : containsStr (docHeadPart1 d (lookupTheme d.theme)) m) :
    containsStr (generatePortfolioHTML d) m := by
  unfold generatePortfolioHTML generatePortfolioHTMLWith
  exact containsStr_left _ (containsStr_left _ (containsStr_left _
    (containsStr_left _ (containsStr_left _ (containsStr_left _
    (containsStr_left _ (containsStr_left _ (containsStr_left _
    (containsStr_left _ (containsStr_left _ (containsStr_left _
    (containsStr_left _ (containsStr_left _ (containsStr_left _
    (containsStr_left _ h)))))))))))))))

/-- Helper: whatever the header block contains, the whole document
contains. -/
theorem generate_contains_of_headerSection {m : String} (d : PortfolioData)
    (h : containsStr (headerSection d) m) :
    containsStr (generatePortfolioHTML d) m := by
  unfold generatePortfolioHTML generatePortfolioHTMLWith
  exact containsStr_left _ (containsStr_left _ (containsStr_left _
    (containsStr_left _ (containsStr_left _ (containsStr_left _
    (containsStr_left _ (containsStr_left _ (containsStr_right _ h))))))))

/-- Helper: whatever the contact section contains, the whole document
contains. -/
theorem generate_contains_of_contactSection {m : String} (d : PortfolioData)
    (h : containsStr (contactSection d) m) :
    containsStr (generatePortfolioHTML d) m := by
  unfold generatePortfolioHTML generatePortfolioHTMLWith
  exact containsStr_left _ (containsStr_right _ h)

/-- Helper: the header block contains the name/title line of src/script.js
line 2051. -/
theorem headerSection_contains_name (d : PortfolioData) :
    containsStr (headerSection d) (headerNameHTML d) := by
  unfold headerSection
  exact containsStr_left _ (containsStr_left _ (containsStr_left _
    (containsStr_right _ (containsStr_refl _))))

/-- Helper: the contact section starts with its unconditional opening chunk. -/
theorem contactSection_contains_open (d : PortfolioData) :
    containsStr (contactSection d) contactOpenHTML := by
  unfold contactSection
  exact containsStr_left _ (containsStr_left _ (containsStr_left _
    (containsStr_left _ (containsStr_left _ (containsStr_left _
    (containsStr_left _ (containsStr_left _ (containsStr_refl _))))))))

set_option maxRecDepth 8192 in
/-- Helper: the contact opening chunk carries the section heading. -/
theorem contactOpen_contains_heading :
    containsStr contactOpenHTML
      "<h2 class=\"section-title\">Get In Touch</h2>" :=
  ⟨"<section class=\"contact-section\">",
   "<p style=\"opacity:0.9;margin-bottom:20px\">Let\x27s connect and discuss opportunities!</p><div class=\"contact-grid\">",
   by decide⟩

/-- Helper: a name that is none of the five own keys misses every entry of
the `themeColors` table. -/
theorem themeColors_lookup_eq_none (t : String)
    (h : t ∉ (["dark", "blue", "green", "orange", "pink"] : List String)) :
    themeColors.lookup t = none := by
  have h1 : t ≠ "dark" := fun he => h (by rw [he]; decide)
  have h2 : t ≠ "blue" := fun he => h (by rw [he]; decide)
  have h3 : t ≠ "green" := fun he => h (by rw [he]; decide)
  have h4 : t ≠ "orange" := fun he => h (by rw [he]; decide)
  have h5 : t ≠ "pink" := fun he => h (by rw [he]; decide)
  unfold themeColors
  simp only [List.lookup]
  rw [show (t == "dark") = false from beq_eq_false_iff_ne.mpr h1]
  rw [show (t == "blue") = false from beq_eq_false_iff_ne.mpr h2]
  rw [show (t == "green") = false from beq_eq_false_iff_ne.mpr h3]
  rw [show (t == "orange") = false from beq_eq_false_iff_ne.mpr h4]
  rw [show (t == "pink") = false from beq_eq_false_iff_ne.mpr h5]

/-- Helper: a theme name that is neither an own key nor an inherited
`Object.prototype` property resolves to the `dark` palette. -/
theorem lookupTheme_eq_dark_of_unknown (t : String)
    (h : t ∉ (["dark", "blue", "green", "orange", "pink"] : List String))
    (hp : t ∉ objectPrototypeProps) :
    lookupTheme t = darkTheme := by
  unfold lookupTheme
  rw [themeColors_lookup_eq_none t h]
  simp [hp]

/-- Helper: a theme name inherited from `Object.prototype` skips the dark
fallback and resolves to the undefined-color view. -/
theorem lookupTheme_eq_undefined_of_proto (t : String)
    (hp : t ∈ objectPrototypeProps) :
    lookupTheme t = undefinedTheme := by
  have hfive :
      t ∉ (["dark", "blue", "green", "orange", "pink"] : List String) := by
    intro hmem
    have hdis : ∀ x ∈ (["dark", "blue", "green", "orange", "pink"] :
        List String), x ∉ objectPrototypeProps := by decide
    exact hdis t hmem hp
  unfold lookupTheme
  rw [themeColors_lookup_eq_none t hfive]
  simp [hp]

/-- Helper: the generated document never reads the snapshot's `theme` field
other than through the palette argument. -/
theorem generatePortfolioHTMLWith_theme_update (d : PortfolioData)
    (t : String) (c : ThemePalette) :
    generatePortfolioHTMLWith { d with theme := t } c =
      generatePortfolioHTMLWith d c := rfl

set_option maxRecDepth 8192 in
/-- Helper: with the undefined-color view of an inherited lookup hit, the
body style rule of src/script.js line 2031 renders "background:undefined". -/
theorem docHeadPart1_contains_background_undefined (d : PortfolioData) :
    containsStr (docHeadPart1 d undefinedTheme) "background:undefined" := by
  unfold docHeadPart1
  exact containsStr_left _ (containsStr_left _ (containsStr_left _
    (containsStr_left _ (containsStr_left _ (containsStr_left _
    (containsStr_left _ (containsStr_left _ (containsStr_left _
    (containsStr_right_assoc
      ⟨" - Portfolio</title><style>*\x7bmargin:0;padding:0;box-sizing:border-box\x7dbody\x7bfont-family:\"Segoe UI\",system-ui,sans-serif;",
       "", by decide⟩)))))))))

set_option maxRecDepth 16384 in
/-- Claim C1, counterexample: "constructor" is none of the five built-in
theme names, yet `themeColors["constructor"]` hits the inherited
`Object.prototype.constructor`; the truthy result skips the
`|| themeColors.dark` fallback, the document renders
"background:undefined", and the output differs from the dark-themed
document — so an unrecognized theme does not always yield the dark
palette's color values. -/
theorem c1_counterexample :
    "constructor" ∉
      (["dark", "blue", "green", "orange", "pink"] : List String) ∧
    lookupTheme "constructor" = undefinedTheme ∧
    undefinedTheme ≠ darkTheme ∧
    containsStr (generatePortfolioHTML sampleProtoSnapshot)
      "background:undefined" ∧
    generatePortfolioHTML sampleProtoSnapshot ≠
      generatePortfolioHTML { sampleProtoSnapshot with theme := "dark" } := by
  refine ⟨by decide, by decide, by decide, ?_, ?_⟩
  · have hl : lookupTheme sampleProtoSnapshot.theme = undefinedTheme := by
      decide
    have hpart :=
      docHeadPart1_contains_background_undefined sampleProtoSnapshot
    rw [← hl] at hpart
    exact generate_contains_of_docHeadPart1 sampleProtoSnapshot hpart
  · decide

/-- Claim C1 (amended): with theme "green" the document contains the exact
color values #10b981 (the palette's primary) and #047857 (its secondary); a
theme name outside the five built-ins that is not an inherited
`Object.prototype` property resolves to the dark palette and the document
is byte-identical to the one generated with theme "dark"; a theme name that
is an inherited property skips the dark fallback (the inherited value is
truthy) and the document renders its color values as "undefined". -/
theorem c1_theme_green_and_fallback (d : PortfolioData) :
    (d.theme = "green" →
      containsStr (generatePortfolioHTML d) "#10b981" ∧
      containsStr (generatePortfolioHTML d) "#047857") ∧
    (d.theme ∉ (["dark", "blue", "green", "orange", "pink"] : List String) →
      d.theme ∉ objectPrototypeProps →
      lookupTheme d.theme = darkTheme ∧
      generatePortfolioHTML d =
        generatePortfolioHTML { d with theme := "dark" }) ∧
    (d.theme ∈ objectPrototypeProps →
      lookupTheme d.theme = undefinedTheme ∧
      containsStr (generatePortfolioHTML d) "background:undefined") := by
  refine ⟨?_, ?_, ?_⟩
  · intro hg
    constructor
    · have h0 := docHeadPart1_contains_primary d (lookupTheme d.theme)
      have h1 : (lookupTheme d.theme).primary = "#10b981" := by
        rw [hg]
        rfl
      rw [h1] at h0
      exact generate_contains_of_docHeadPart1 d h0
    · have h0 := docHeadPart1_contains_secondary d (lookupTheme d.theme)
      have h1 : (lookupTheme d.theme).secondary = "#047857" := by
        rw [hg]
        rfl
      rw [h1] at h0
      exact generate_contains_of_docHeadPart1 d h0
  · intro hmem hp
    have hl := lookupTheme_eq_dark_of_unknown d.theme hmem hp
    refine ⟨hl, ?_⟩
    calc generatePortfolioHTML d
        = generatePortfolioHTMLWith d darkTheme := by
          unfold generatePortfolioHTML
          rw [hl]
      _ = generatePortfolioHTMLWith { d with theme := "dark" } darkTheme :=
          (generatePortfolioHTMLWith_theme_update d "dark" darkTheme).symm
      _ = generatePortfolioHTML { d with theme := "dark" } := rfl
  · intro hp
    have hl := lookupTheme_eq_undefined_of_proto d.theme hp
    refine ⟨hl, ?_⟩
    have hpart := docHeadPart1_contains_background_undefined d
    rw [← hl] at hpart
    exact generate_contains_of_docHeadPart1 d hpart

/-- Witness for the amended C1 at the sample snapshot, whose theme is
"green". -/
theorem c1_theme_green_and_fallback_witness :
    containsStr (generatePortfolioHTML sampleSnapshot) "#10b981" :=
  ((c1_theme_green_and_fallback sampleSnapshot).1 rfl).1

/-- Claim C8: the generator is a function of the snapshot alone — equal
snapshots give byte-identical documents. -/
theorem c8_generation_deterministic (d1 d2 : PortfolioData) (h : d1 = d2) :
    generatePortfolioHTML d1 = generatePortfolioHTML d2 :=
  congrArg generatePortfolioHTML h

/-- Witness for C8 at the sample snapshot. -/
theorem c8_generation_deterministic_witness :
    generatePortfolioHTML sampleSnapshot =
      generatePortfolioHTML sampleSnapshot :=
  c8_generation_deterministic sampleSnapshot sampleSnapshot rfl

/-- Helper: the skills section markup is never the empty string. -/
theorem skillsSectionBody_ne_empty (d : PortfolioData) :
    skillsSectionBody d ≠ "" := by
  unfold skillsSectionBody
  exact append_ne_empty_left _ (append_ne_empty_left _ (by decide))

/-- Helper: the projects section markup is never the empty string. -/
theorem projectsSectionBody_ne_empty (d : PortfolioData) :
    projectsSectionBody d ≠ "" := by
  unfold projectsSectionBody
  exact append_ne_empty_left _ (append_ne_empty_left _ (by decide))

/-- Helper: the work section markup is never the empty string. -/
theorem workSectionBody_ne_empty (d : PortfolioData) :
    workSectionBody d ≠ "" := by
  unfold workSectionBody
  exact append_ne_empty_left _ (append_ne_empty_left _ (by decide))

/-- Helper: the certificates section markup is never the empty string. -/
theorem certsSectionBody_ne_empty (d : PortfolioData) :
    certsSectionBody d ≠ "" := by
  unfold certsSectionBody
  exact append_ne_empty_left _ (append_ne_empty_left _ (by decide))

/-- Helper: the education section markup is never the empty string. -/
theorem educationSectionBody_ne_empty (d : PortfolioData) (c : ThemePalette) :
    educationSectionBody d c ≠ "" := by
  unfold educationSectionBody
  exact append_ne_empty_left _ (append_ne_empty_left _ (append_ne_empty_left _
    (append_ne_empty_left _ (append_ne_empty_left _ (append_ne_empty_left _
    (by decide))))))

/-- Claim C7: with all optional backing data empty the document degenerates
to head, header, container, contact and footer — no skills, projects, work,
certificates or education markup; the header with the person's name and
title is always present; and each section's markup is non-empty exactly
when its backing data is. -/
theorem c7_conditional_sections (d : PortfolioData) :
    ((d.skills = [] ∧ d.projects = [] ∧ d.certificates = [] ∧
      d.workExperience = [] ∧ d.education = "") →
      (skillsSection d = "" ∧ projectsSection d = "" ∧ workSection d = "" ∧
        certsSection d = "" ∧
        (∀ c : ThemePalette, educationSection d c = "") ∧
        generatePortfolioHTML d =
          docHeadPart1 d (lookupTheme d.theme)
            ++ docHeadPart2 (lookupTheme d.theme)
            ++ docHeadPart3 (lookupTheme d.theme)
            ++ docHeadPart4 (lookupTheme d.theme)
            ++ docHeadPart5 (lookupTheme d.theme)
            ++ docHeadPart6 (lookupTheme d.theme)
            ++ docHeadPart7 (lookupTheme d.theme)
            ++ docHeadPart8
            ++ headerSection d
            ++ "<div class=\"container\">"
            ++ contactSection d
            ++ footerHTML d)) ∧
    containsStr (generatePortfolioHTML d)
      ("<h1>" ++ d.fullName ++ "</h1><p class=\"tagline\">" ++ d.title
        ++ "</p>") ∧
    (skillsSection d ≠ "" ↔ d.skills ≠ []) ∧
    (projectsSection d ≠ "" ↔ d.projects ≠ []) ∧
    (workSection d ≠ "" ↔ d.workExperience ≠ []) ∧
    (certsSection d ≠ "" ↔ d.certificates ≠ []) ∧
    (∀ c : ThemePalette, educationSection d c ≠ "" ↔ d.education ≠ "") := by
  refine ⟨?_, ?_, ?_, ?_, ?_, ?_, ?_⟩
  · rintro ⟨h1, h2, h3, h4, h5⟩
    have hs1 : skillsSection d = "" := by simp [skillsSection, h1]
    have hs2 : projectsSection d = "" := by simp [projectsSection, h2]
    have hs3 : workSection d = "" := by simp [workSection, h4]
    have hs4 : certsSection d = "" := by simp [certsSection, h3]
    have hs5 : ∀ c : ThemePalette, educationSection d c = "" := by
      intro c
      simp [educationSection, h5]
    refine ⟨hs1, hs2, hs3, hs4, hs5, ?_⟩
    unfold generatePortfolioHTML generatePortfolioHTMLWith
    rw [hs1, hs2, hs3, hs4, hs5 (lookupTheme d.theme)]
    simp only [String.append_empty]
  · exact generate_contains_of_headerSection d (headerSection_contains_name d)
  · unfold skillsSection
    rw [if_body_ne_empty_iff _ _ (skillsSectionBody_ne_empty d)]
    exact List.length_pos
  · unfold projectsSection
    rw [if_body_ne_empty_iff _ _ (projectsSectionBody_ne_empty d)]
    exact List.length_pos
  · unfold workSection
    rw [if_body_ne_empty_iff _ _ (workSectionBody_ne_empty d)]
    exact List.length_pos
  · unfold certsSection
    rw [if_body_ne_empty_iff _ _ (certsSectionBody_ne_empty d)]
    exact List.length_pos
  · intro c
    unfold educationSection
    rw [if_body_ne_empty_iff _ _ (educationSectionBody_ne_empty d c)]

/-- Witness for C7: the emptied sample snapshot produces no skills section. -/
theorem c7_conditional_sections_witness :
    skillsSection sampleEmptySnapshot = "" :=
  ((c7_conditional_sections sampleEmptySnapshot).1
    ⟨rfl, rfl, rfl, rfl, rfl⟩).1

/-- Helper: the email contact entry markup is never the empty string. -/
theorem contactEmailItemHTML_ne_empty (d : PortfolioData) :
    contactEmailItemHTML d ≠ "" := by
  unfold contactEmailItemHTML
  exact append_ne_empty_left _ (append_ne_empty_left _ (by decide))

/-- Helper: the phone contact entry markup is never the empty string. -/
theorem contactPhoneItemHTML_ne_empty (d : PortfolioData) :
    contactPhoneItemHTML d ≠ "" := by
  unfold contactPhoneItemHTML
  exact append_ne_empty_left _ (append_ne_empty_left _ (by decide))

/-- Helper: the location contact entry markup is never the empty string. -/
theorem contactLocationItemHTML_ne_empty (d : PortfolioData) :
    contactLocationItemHTML d ≠ "" := by
  unfold contactLocationItemHTML
  exact append_ne_empty_left _ (append_ne_empty_left _ (by decide))

/-- Helper: the LinkedIn contact entry markup is never the empty string. -/
theorem contactLinkedinItemHTML_ne_empty (d : PortfolioData) :
    contactLinkedinItemHTML d ≠ "" := by
  unfold contactLinkedinItemHTML
  exact append_ne_empty_left _ (append_ne_empty_left _ (by decide))

/-- Helper: the GitHub contact entry markup is never the empty string. -/
theorem contactGithubItemHTML_ne_empty (d : PortfolioData) :
    contactGithubItemHTML d ≠ "" := by
  unfold contactGithubItemHTML
  exact append_ne_empty_left _ (append_ne_empty_left _ (by decide))

/-- Helper: the website contact entry markup is never the empty string. -/
theorem contactWebsiteItemHTML_ne_empty (d : PortfolioData) :
    contactWebsiteItemHTML d ≠ "" := by
  unfold contactWebsiteItemHTML
  exact append_ne_empty_left _ (append_ne_empty_left _ (by decide))

/-- Helper: the social-handle contact entry markup is never the empty
string. -/
theorem contactTwitterItemHTML_ne_empty (d : PortfolioData) :
    contactTwitterItemHTML d ≠ "" := by
  unfold contactTwitterItemHTML
  exact append_ne_empty_left _ (append_ne_empty_left _ (by decide))

/-- Claim C10: every generated document carries the contact section heading,
whatever the snapshot; each of the seven channel entries is emitted exactly
when its field is non-empty. -/
theorem c10_contact_always_present (d : PortfolioData) :
    containsStr (generatePortfolioHTML d)
      "<h2 class=\"section-title\">Get In Touch</h2>" ∧
    (contactEmailHTML d ≠ "" ↔ d.email ≠ "") ∧
    (contactPhoneHTML d ≠ "" ↔ d.phone ≠ "") ∧
    (contactLocationHTML d ≠ "" ↔ d.location ≠ "") ∧
    (contactLinkedinHTML d ≠ "" ↔ d.linkedin ≠ "") ∧
    (contactGithubHTML d ≠ "" ↔ d.github ≠ "") ∧
    (contactWebsiteHTML d ≠ "" ↔ d.website ≠ "") ∧
    (contactTwitterHTML d ≠ "" ↔ d.twitter ≠ "") := by
  refine ⟨?_, ?_, ?_, ?_, ?_, ?_, ?_, ?_⟩
  · exact generate_contains_of_contactSection d
      (containsStr_trans (contactSection_contains_open d)
        contactOpen_contains_heading)
  · unfold contactEmailHTML
    rw [if_body_ne_empty_iff _ _ (contactEmailItemHTML_ne_empty d)]
  · unfold contactPhoneHTML
    rw [if_body_ne_empty_iff _ _ (contactPhoneItemHTML_ne_empty d)]
  · unfold contactLocationHTML
    rw [if_body_ne_empty_iff _ _ (contactLocationItemHTML_ne_empty d)]
  · unfold contactLinkedinHTML
    rw [if_body_ne_empty_iff _ _ (contactLinkedinItemHTML_ne_empty d)]
  · unfold contactGithubHTML
    rw [if_body_ne_empty_iff _ _ (contactGithubItemHTML_ne_empty d)]
  · unfold contactWebsiteHTML
    rw [if_body_ne_empty_iff _ _ (contactWebsiteItemHTML_ne_empty d)]
  · unfold contactTwitterHTML
    rw [if_body_ne_empty_iff _ _ (contactTwitterItemHTML_ne_empty d)]

/-- Witness for C10 at the sample snapshot. -/
theorem c10_contact_always_present_witness :
    containsStr (generatePortfolioHTML sampleSnapshot)
      "<h2 class=\"section-title\">Get In Touch</h2>" :=
  (c10_contact_always_present sampleSnapshot).1
